import Mathlib

/-!
Shallow embedding of `src/threshold-monitor.c`: a bus client that watches
PropertiesChanged signals on a sensor threshold interface and requests a
chassis power transition when a watched critical-threshold property becomes
asserted.

The sd-bus message is modelled as a record of the observations the handler
makes of it: its type tag, interface and member names, sender object path,
first positional string argument (which may fail to read, carrying the
negative return code), and the changed-properties array (whose container
entry may likewise fail). Variant values are modelled as either a boolean
payload or a non-boolean payload tagged with its wire type string; reading a
non-boolean variant as a boolean fails, mirroring sd_bus_message_read with
signature "v","b". Remote method calls issued by the handler are recorded as
values of a call record type; the result code of the one remote call is an
input parameter of the model (the environment decides it).
-/

namespace ThresholdMonitor

/-- Message type tags of the bus transport (sd-bus message classes). -/
inductive msg_type where
  | signal
  | method_call
  | method_return
  | method_error
deriving DecidableEq

/-- A variant-typed wire value: either a boolean payload, or a payload of
some other wire type, tagged with its type signature string. -/
inductive variant where
  | vBool : Bool → variant
  | vOther : String → variant
deriving DecidableEq

/-- enum threshold_type: T_HIGH = 0x1. -/
def T_HIGH : Nat := 1

/-- enum threshold_type: T_LOW = 0x2. -/
def T_LOW : Nat := 2

/-- struct sensor_config: a sensor bus path and a bitmask of watched
threshold kinds. -/
structure sensor_config where
  path : String
  thresholds : Nat
deriving DecidableEq

/-- The static sensor configuration table from the source: Temp1 watches low
and high events, Temp2 watches only high events. -/
def sensor_configs : List sensor_config :=
  [⟨"/xyz/openbmc_project/sensors/temperature/Temp1", T_LOW ||| T_HIGH⟩,
   ⟨"/xyz/openbmc_project/sensors/temperature/Temp2", T_HIGH⟩]

/-- The well-known properties interface name. -/
def prop_iface : String := "org.freedesktop.DBus.Properties"

/-- The well-known properties-changed signal member name. -/
def propchange_member : String := "PropertiesChanged"

/-- The threshold-critical interface name. -/
def crit_iface : String := "xyz.openbmc_project.Sensor.Threshold.Critical"

/-- The static mapping of threshold kind bits to wire property names
(prop_names in the source). -/
def prop_names : List (Nat × String) :=
  [(T_HIGH, "CriticalAlarmHigh"), (T_LOW, "CriticalAlarmLow")]

/-- The observations the handler makes of an incoming sd_bus message.
firstArg and body are Except because the corresponding reads can fail with
a negative return code on a malformed payload. -/
structure sd_bus_message where
  mtype : msg_type
  interface : String
  member : String
  path : Option String
  firstArg : Except Int String
  body : Except Int (List (String × variant))

/-- sd_bus_message_is_signal(msg, iface, member): the message is a signal
whose interface and member equal the given names exactly. -/
def sd_bus_message_is_signal (msg : sd_bus_message) (iface member : String) : Bool :=
  msg.mtype == msg_type.signal && msg.interface == iface && msg.member == member

/-- The loop body of threshold_prop_matches_config, generalized over the
prop_names table it scans: on the first table entry whose name equals
propname, return whether its kind bit is set in the config thresholds mask;
if no entry matches, return false. -/
def threshold_prop_matches_g (config : sensor_config) (propname : String) :
    List (Nat × String) → Bool
  | [] => false
  | (c, p) :: rest =>
    if p = propname then decide (config.thresholds &&& c ≠ 0)
    else threshold_prop_matches_g config propname rest

/-- threshold_prop_matches_config from the source: scan the static
prop_names table. -/
def threshold_prop_matches_config (config : sensor_config) (propname : String) : Bool :=
  threshold_prop_matches_g config propname prop_names

/-- The loop body of find_sensor_config, generalized over the table it
scans: first entry with an exactly equal path wins. -/
def sensor_config_lookup (path : String) : List sensor_config → Option sensor_config
  | [] => none
  | cfg :: rest => if cfg.path = path then some cfg else sensor_config_lookup path rest

/-- find_sensor_config generalized over the configuration table: a NULL
path yields no config, otherwise scan the table for an exact path match. -/
def find_sensor_config_g (configs : List sensor_config) :
    Option String → Option sensor_config
  | none => none
  | some path => sensor_config_lookup path configs

/-- find_sensor_config from the source: scan the static sensor_configs
table. -/
def find_sensor_config (path : Option String) : Option sensor_config :=
  find_sensor_config_g sensor_configs path

/-- A remote method invocation as issued through sd_bus_call_method:
destination service, object path, interface, member, signature string and
the flattened argument list. -/
structure sd_bus_call where
  destination : String
  path : String
  interface : String
  member : String
  signature : String
  args : List String
deriving DecidableEq

/-- The one remote call issued by handle_critical_threshold: set the
RequestedPowerTransition property of the chassis state object to the Off
transition. Every field is a compile-time constant of the source. -/
def chassis_off_call : sd_bus_call :=
  ⟨"xyz.openbmc_project.State.Chassis",
   "/xyz/openbmc_project/state/chassis0",
   prop_iface, "Set", "ssv",
   ["xyz.openbmc_project.State.Chassis",
    "RequestedPowerTransition",
    "s",
    "xyz.openbmc_project.State.Chassis.Transition.Off"]⟩

/-- handle_critical_threshold from the source: log the assertion, issue the
fixed chassis-off call, and log a failure notice when the call result code
(call_rc, decided by the environment) is negative. The function returns no
result code: a remote call failure is logged only. Output is the list of
calls issued and the list of log lines printed. -/
def handle_critical_threshold (path prop : String) (call_rc : Int) :
    List sd_bus_call × List String :=
  ([chassis_off_call],
   ("Sensor " ++ path ++ " asserted " ++ prop ++ "!") ::
     (if call_rc < 0 then ["failed to trigger host transition"] else []))

/-- The changed-properties loop of propchange_handler, generalized over the
prop_names table: walk the entries in wire order; an entry whose name does
not match the config is skipped without decoding its value; a matching
entry is read as a boolean; reading a non-boolean value fails and breaks
the loop (result none, mirroring the break on rc < 0); a true boolean
stops the loop with that property name; a false boolean continues. Running
off the end of the array (enter_container failing) yields none. -/
def prop_loop_g (table : List (Nat × String)) (sensor : sensor_config) :
    List (String × variant) → Option String
  | [] => none
  | e :: rest =>
    if !(threshold_prop_matches_g sensor e.1 table) then
      prop_loop_g table sensor rest
    else
      match e.2 with
      | variant.vBool b => if b then some e.1 else prop_loop_g table sensor rest
      | variant.vOther _ => none

/-- The changed-properties loop against the static prop_names table. -/
def prop_loop (sensor : sensor_config) (entries : List (String × variant)) :
    Option String :=
  prop_loop_g prop_names sensor entries

/-- The observable outcome of one propchange_handler invocation: the
returned result code, the dispatch (the sender path and property name
passed to handle_critical_threshold, when invoked), the remote calls
issued and the log lines printed. -/
structure handler_output where
  rc : Int
  dispatch : Option (String × String)
  calls : List sd_bus_call
  logs : List String
deriving DecidableEq

/-- propchange_handler from the source, generalized over the two static
tables it reads. The stages mirror the C control flow: reject non-matching
signals with rc 0; propagate a failed read of the first string argument as
its negative rc; reject a first argument differing from crit_iface with rc
0; skip messages whose sender path has no sensor config with rc 0;
propagate a failed entry into the changed-properties container as its
negative rc; then run the property loop, and when it found an asserted
property, invoke handle_critical_threshold with the sender path and that
property name. The handler returns 0 after the loop regardless of how the
loop ended. The sender path is non-null whenever a sensor config was
found, so the getD default is never the dispatched value. -/
def propchange_handler_g (configs : List sensor_config) (table : List (Nat × String))
    (msg : sd_bus_message) (call_rc : Int) : handler_output :=
  if !(sd_bus_message_is_signal msg prop_iface propchange_member) then ⟨0, none, [], []⟩
  else
    match msg.firstArg with
    | Except.error rc => ⟨rc, none, [], []⟩
    | Except.ok iface =>
      if iface ≠ crit_iface then ⟨0, none, [], []⟩
      else
        match find_sensor_config_g configs msg.path with
        | none => ⟨0, none, [], []⟩
        | some sensor =>
          match msg.body with
          | Except.error rc => ⟨rc, none, [], []⟩
          | Except.ok entries =>
            match prop_loop_g table sensor entries with
            | none => ⟨0, none, [], []⟩
            | some propname =>
              let sender := msg.path.getD ""
              let act := handle_critical_threshold sender propname call_rc
              ⟨0, some (sender, propname), act.1, act.2⟩

/-- propchange_handler against the static configuration tables. -/
def propchange_handler (msg : sd_bus_message) (call_rc : Int) : handler_output :=
  propchange_handler_g sensor_configs prop_names msg call_rc

/-- The mutable-global state a C handler invocation could in principle
write: the sensor registry and the kind-to-name table. -/
structure globals where
  sensor_configs : List sensor_config
  prop_names : List (Nat × String)
deriving DecidableEq

/-- The globals as initialized in the source. -/
def init_globals : globals := ⟨sensor_configs, prop_names⟩

/-- State-passing form of the handler: the handler reads the global tables
and returns them; the source contains no store to either table, so the
state component passes through unchanged. -/
def propchange_handler_st (g : globals) (msg : sd_bus_message) (call_rc : Int) :
    globals × handler_output :=
  (g, propchange_handler_g g.sensor_configs g.prop_names msg call_rc)

/-- Builds a well-formed properties-changed signal message carrying the
crit_iface first argument, a sender path and a changed-properties list, for
use as concrete test input. -/
def mk_propchange_msg (path : String) (entries : List (String × variant)) :
    sd_bus_message :=
  ⟨msg_type.signal, prop_iface, propchange_member, some path,
   Except.ok crit_iface, Except.ok entries⟩

/-- The Temp1 sensor path from the static configuration. -/
def temp1_path : String := "/xyz/openbmc_project/sensors/temperature/Temp1"

/-- The Temp2 sensor path from the static configuration. -/
def temp2_path : String := "/xyz/openbmc_project/sensors/temperature/Temp2"

/-! Helper lemmas about the handler branches. -/

/-- A message failing the is_signal check is rejected with rc 0 and no
effects, whatever its payload. -/
theorem handler_not_signal (msg : sd_bus_message) (call_rc : Int)
    (hsig : sd_bus_message_is_signal msg prop_iface propchange_member = false) :
    propchange_handler msg call_rc = ⟨0, none, [], []⟩ := by
  simp [propchange_handler, propchange_handler_g, hsig]

/-- A failed read of the first string argument propagates its rc. -/
theorem handler_firstarg_error (msg : sd_bus_message) (call_rc rc : Int)
    (hsig : sd_bus_message_is_signal msg prop_iface propchange_member = true)
    (herr : msg.firstArg = Except.error rc) :
    propchange_handler msg call_rc = ⟨rc, none, [], []⟩ := by
  simp [propchange_handler, propchange_handler_g, hsig, herr]

/-- A first argument other than crit_iface is rejected with rc 0 and no
effects, whatever the rest of the message holds. -/
theorem handler_wrong_iface (msg : sd_bus_message) (call_rc : Int) (iface : String)
    (hfa : msg.firstArg = Except.ok iface) (hif : iface ≠ crit_iface) :
    propchange_handler msg call_rc = ⟨0, none, [], []⟩ := by
  cases hsig : sd_bus_message_is_signal msg prop_iface propchange_member with
  | false => exact handler_not_signal msg call_rc hsig
  | true => simp [propchange_handler, propchange_handler_g, hsig, hfa, hif]

/-- A sender path with no sensor config skips the message: rc 0, nothing
decoded, no dispatch. -/
theorem handler_no_sensor (msg : sd_bus_message) (call_rc : Int)
    (hsig : sd_bus_message_is_signal msg prop_iface propchange_member = true)
    (hfa : msg.firstArg = Except.ok crit_iface)
    (hfs : find_sensor_config msg.path = none) :
    propchange_handler msg call_rc = ⟨0, none, [], []⟩ := by
  rw [find_sensor_config] at hfs
  simp [propchange_handler, propchange_handler_g, hsig, hfa, hfs]

/-- A failed entry into the changed-properties container propagates its
rc. -/
theorem handler_body_error (msg : sd_bus_message) (call_rc rc : Int)
    (sensor : sensor_config)
    (hsig : sd_bus_message_is_signal msg prop_iface propchange_member = true)
    (hfa : msg.firstArg = Except.ok crit_iface)
    (hfs : find_sensor_config msg.path = some sensor)
    (hb : msg.body = Except.error rc) :
    propchange_handler msg call_rc = ⟨rc, none, [], []⟩ := by
  rw [find_sensor_config] at hfs
  simp [propchange_handler, propchange_handler_g, hsig, hfa, hfs, hb]

/-- When the property loop finds nothing asserted, the handler returns 0
with no dispatch. -/
theorem handler_loop_none (msg : sd_bus_message) (call_rc : Int)
    (sensor : sensor_config) (entries : List (String × variant))
    (hsig : sd_bus_message_is_signal msg prop_iface propchange_member = true)
    (hfa : msg.firstArg = Except.ok crit_iface)
    (hfs : find_sensor_config msg.path = some sensor)
    (hb : msg.body = Except.ok entries)
    (hl : prop_loop sensor entries = none) :
    propchange_handler msg call_rc = ⟨0, none, [], []⟩ := by
  rw [find_sensor_config] at hfs
  rw [prop_loop] at hl
  simp [propchange_handler, propchange_handler_g, hsig, hfa, hfs, hb, hl]

/-- When the property loop finds an asserted property, the handler invokes
handle_critical_threshold on the sender path and that property, and still
returns 0. -/
theorem handler_loop_some (msg : sd_bus_message) (call_rc : Int)
    (sensor : sensor_config) (entries : List (String × variant)) (pn : String)
    (hsig : sd_bus_message_is_signal msg prop_iface propchange_member = true)
    (hfa : msg.firstArg = Except.ok crit_iface)
    (hfs : find_sensor_config msg.path = some sensor)
    (hb : msg.body = Except.ok entries)
    (hl : prop_loop sensor entries = some pn) :
    propchange_handler msg call_rc =
      ⟨0, some (msg.path.getD "", pn),
       (handle_critical_threshold (msg.path.getD "") pn call_rc).1,
       (handle_critical_threshold (msg.path.getD "") pn call_rc).2⟩ := by
  rw [find_sensor_config] at hfs
  rw [prop_loop] at hl
  simp [propchange_handler, propchange_handler_g, hsig, hfa, hfs, hb, hl]

/-- Every handler invocation either rejects (some rc, no dispatch, no
calls, no logs) or dispatches exactly once through
handle_critical_threshold, returning 0. -/
theorem handler_cases (msg : sd_bus_message) (call_rc : Int) :
    (∃ rc, propchange_handler msg call_rc = ⟨rc, none, [], []⟩) ∨
    ∃ sensor entries pn,
      find_sensor_config msg.path = some sensor ∧
      msg.body = Except.ok entries ∧
      prop_loop sensor entries = some pn ∧
      propchange_handler msg call_rc =
        ⟨0, some (msg.path.getD "", pn),
         (handle_critical_threshold (msg.path.getD "") pn call_rc).1,
         (handle_critical_threshold (msg.path.getD "") pn call_rc).2⟩ := by
  cases hsig : sd_bus_message_is_signal msg prop_iface propchange_member with
  | false => exact Or.inl ⟨0, handler_not_signal msg call_rc hsig⟩
  | true =>
    cases hfa : msg.firstArg with
    | error rc => exact Or.inl ⟨rc, handler_firstarg_error msg call_rc rc hsig hfa⟩
    | ok iface =>
      by_cases hif : iface = crit_iface
      · subst hif
        cases hfs : find_sensor_config msg.path with
        | none => exact Or.inl ⟨0, handler_no_sensor msg call_rc hsig hfa hfs⟩
        | some sensor =>
          cases hb : msg.body with
          | error rc =>
            exact Or.inl ⟨rc, handler_body_error msg call_rc rc sensor hsig hfa hfs hb⟩
          | ok entries =>
            cases hl : prop_loop sensor entries with
            | none =>
              exact Or.inl ⟨0, handler_loop_none msg call_rc sensor entries hsig hfa hfs hb hl⟩
            | some pn =>
              exact Or.inr ⟨sensor, entries, pn, rfl, rfl, hl,
                handler_loop_some msg call_rc sensor entries pn hsig hfa hfs hb hl⟩
      · exact Or.inl ⟨0, handler_wrong_iface msg call_rc iface hfa hif⟩

/-! Helper lemmas about the changed-properties loop. -/

/-- A property name the loop reports asserted matches the sensor config. -/
theorem prop_loop_g_some_matches (t : List (Nat × String)) (s : sensor_config)
    (l : List (String × variant)) (p : String) (h : prop_loop_g t s l = some p) :
    threshold_prop_matches_g s p t = true := by
  induction l with
  | nil => exact absurd h (by simp [prop_loop_g])
  | cons e rest ih =>
    obtain ⟨n, v⟩ := e
    rw [prop_loop_g] at h
    dsimp only at h
    cases hm : threshold_prop_matches_g s n t with
    | false =>
      simp [hm] at h
      exact ih h
    | true =>
      cases v with
      | vOther tag => simp [hm] at h
      | vBool b =>
        cases b with
        | false =>
          simp [hm] at h
          exact ih h
        | true =>
          simp [hm] at h
          exact h ▸ hm

/-- The property the loop reports asserted is the first entry, in wire
order, that matches the config and carries the boolean value true. -/
theorem prop_loop_g_first_match (t : List (Nat × String)) (s : sensor_config)
    (l : List (String × variant)) (p : String) (h : prop_loop_g t s l = some p) :
    l.find? (fun e => threshold_prop_matches_g s e.1 t && decide (e.2 = variant.vBool true)) =
      some (p, variant.vBool true) := by
  induction l with
  | nil => exact absurd h (by simp [prop_loop_g])
  | cons e rest ih =>
    obtain ⟨n, v⟩ := e
    rw [prop_loop_g] at h
    dsimp only at h
    cases hm : threshold_prop_matches_g s n t with
    | false =>
      simp [hm] at h
      rw [List.find?_cons_of_neg _ (by simp [hm])]
      exact ih h
    | true =>
      cases v with
      | vOther tag => simp [hm] at h
      | vBool b =>
        cases b with
        | false =>
          simp [hm] at h
          rw [List.find?_cons_of_neg _ (by simp)]
          exact ih h
        | true =>
          simp [hm] at h
          rw [List.find?_cons_of_pos _ (by simp [hm])]
          rw [h]

/-- When the loop reports an asserted property, the entry list splits at
that entry, and nothing after the triggering entry influences the result:
the loop returns the same property for every possible suffix. -/
theorem prop_loop_g_split (t : List (Nat × String)) (s : sensor_config)
    (l : List (String × variant)) (p : String) (h : prop_loop_g t s l = some p) :
    ∃ l₁ l₂, l = l₁ ++ (p, variant.vBool true) :: l₂ ∧
      ∀ l₂', prop_loop_g t s (l₁ ++ (p, variant.vBool true) :: l₂') = some p := by
  induction l with
  | nil => exact absurd h (by simp [prop_loop_g])
  | cons e rest ih =>
    obtain ⟨n, v⟩ := e
    rw [prop_loop_g] at h
    dsimp only at h
    cases hm : threshold_prop_matches_g s n t with
    | false =>
      simp [hm] at h
      obtain ⟨l₁, l₂, heq, hall⟩ := ih h
      refine ⟨(n, v) :: l₁, l₂, by rw [heq]; rfl, fun l₂' => ?_⟩
      rw [List.cons_append, prop_loop_g]
      dsimp only
      simp only [hm]
      simpa using hall l₂'
    | true =>
      cases v with
      | vOther tag => simp [hm] at h
      | vBool b =>
        cases b with
        | false =>
          simp [hm] at h
          obtain ⟨l₁, l₂, heq, hall⟩ := ih h
          refine ⟨(n, variant.vBool false) :: l₁, l₂, by rw [heq]; rfl, fun l₂' => ?_⟩
          rw [List.cons_append, prop_loop_g]
          dsimp only
          simp only [hm]
          simpa using hall l₂'
        | true =>
          simp [hm] at h
          subst h
          refine ⟨[], rest, rfl, fun l₂' => ?_⟩
          rw [List.nil_append, prop_loop_g]
          dsimp only
          simp [hm]

/-! Helper lemmas about the sensor registry lookup. -/

/-- A successful lookup returns a table entry whose path equals the probe
exactly. -/
theorem sensor_config_lookup_some (path : String) (l : List sensor_config)
    (cfg : sensor_config) (h : sensor_config_lookup path l = some cfg) :
    cfg ∈ l ∧ cfg.path = path := by
  induction l with
  | nil => exact absurd h (by simp [sensor_config_lookup])
  | cons c rest ih =>
    rw [sensor_config_lookup] at h
    by_cases hc : c.path = path
    · rw [if_pos hc] at h
      obtain rfl : c = cfg := Option.some.injEq .. ▸ h
      exact ⟨List.mem_cons_self .., hc⟩
    · rw [if_neg hc] at h
      obtain ⟨hmem, hp⟩ := ih h
      exact ⟨List.mem_cons_of_mem _ hmem, hp⟩

/-- When no table entry has exactly the probed path, lookup finds
nothing. -/
theorem sensor_config_lookup_none (path : String) (l : List sensor_config)
    (h : ∀ c ∈ l, c.path ≠ path) :
    sensor_config_lookup path l = none := by
  induction l with
  | nil => rfl
  | cons c rest ih =>
    rw [sensor_config_lookup, if_neg (h c (List.mem_cons_self ..))]
    exact ih fun d hd => h d (List.mem_cons_of_mem _ hd)

/-- The classifier as a table lookup: it answers true exactly when the
property name appears in the prop_names table with a kind bit that is set
in the config mask. -/
theorem matches_table_iff (config : sensor_config) (propname : String) :
    threshold_prop_matches_config config propname = true ↔
      ∃ k, (k, propname) ∈ prop_names ∧ config.thresholds &&& k ≠ 0 := by
  have hdef : threshold_prop_matches_config config propname =
      (if "CriticalAlarmHigh" = propname then decide (config.thresholds &&& T_HIGH ≠ 0)
       else if "CriticalAlarmLow" = propname then decide (config.thresholds &&& T_LOW ≠ 0)
       else false) := rfl
  rw [hdef]
  have hs : ("CriticalAlarmHigh" : String) ≠ "CriticalAlarmLow" := by decide
  by_cases h1 : propname = "CriticalAlarmHigh"
  · subst h1
    simp [prop_names, T_HIGH, T_LOW, hs, hs.symm]
  · by_cases h2 : propname = "CriticalAlarmLow"
    · subst h2
      simp [prop_names, T_HIGH, T_LOW, hs, hs.symm, Ne.symm h1]
    · simp [prop_names, Ne.symm h1, Ne.symm h2, h1, h2]

/-- The handler result code is independent of the outcome of the remote
trigger call: a failed trigger is logged, never propagated. -/
theorem handler_rc_indep (m : sd_bus_message) (a b : Int) :
    (propchange_handler m a).rc = (propchange_handler m b).rc := by
  cases hsig : sd_bus_message_is_signal m prop_iface propchange_member with
  | false => rw [handler_not_signal m a hsig, handler_not_signal m b hsig]
  | true =>
    cases hfa : m.firstArg with
    | error rc =>
      rw [handler_firstarg_error m a rc hsig hfa, handler_firstarg_error m b rc hsig hfa]
    | ok iface =>
      by_cases hif : iface = crit_iface
      · subst hif
        cases hfs : find_sensor_config m.path with
        | none => rw [handler_no_sensor m a hsig hfa hfs, handler_no_sensor m b hsig hfa hfs]
        | some sensor =>
          cases hb : m.body with
          | error rc =>
            rw [handler_body_error m a rc sensor hsig hfa hfs hb,
              handler_body_error m b rc sensor hsig hfa hfs hb]
          | ok entries =>
            cases hl : prop_loop sensor entries with
            | none =>
              rw [handler_loop_none m a sensor entries hsig hfa hfs hb hl,
                handler_loop_none m b sensor entries hsig hfa hfs hb hl]
            | some pn =>
              rw [handler_loop_some m a sensor entries pn hsig hfa hfs hb hl,
                handler_loop_some m b sensor entries pn hsig hfa hfs hb hl]
      · rw [handler_wrong_iface m a iface hfa hif, handler_wrong_iface m b iface hfa hif]

/-! Claim theorems. -/

/-- C3: the classifier answers true exactly when the property name appears
in the static kind-to-name table with a kind contained in the config mask;
any name absent from the table yields false for every configuration. -/
theorem matches_characterization (config : sensor_config) (propname : String) :
    (threshold_prop_matches_config config propname = true ↔
      ∃ k, (k, propname) ∈ prop_names ∧ config.thresholds &&& k ≠ 0) ∧
    ((∀ k, (k, propname) ∉ prop_names) →
      threshold_prop_matches_config config propname = false) := by
  refine ⟨matches_table_iff config propname, fun habs => ?_⟩
  cases hb : threshold_prop_matches_config config propname with
  | false => rfl
  | true =>
    obtain ⟨k, hk, _⟩ := (matches_table_iff config propname).mp hb
    exact absurd hk (habs k)

/-- Witness for C3: a property name absent from the table is classified
false even under a configuration watching every kind. -/
theorem matches_characterization_inst :
    threshold_prop_matches_config ⟨temp1_path, T_LOW ||| T_HIGH⟩ "Value" = false := by
  apply (matches_characterization ⟨temp1_path, T_LOW ||| T_HIGH⟩ "Value").2
  intro k hk
  simp only [prop_names, List.mem_cons, List.not_mem_nil, or_false, Prod.mk.injEq] at hk
  rcases hk with ⟨-, hk⟩ | ⟨-, hk⟩ <;> exact absurd hk (by decide)

/-- C5: the registry finds a config only by exact path equality against the
configured table (so no prefix or wildcard match), and an accepted signal
whose sender path has no registry entry is skipped whole: rc 0, no
dispatch, no call, no log, whatever the changed-properties payload is. -/
theorem registry_exact_match_and_skip (msg : sd_bus_message) (call_rc : Int)
    (path : String) (cfg : sensor_config) :
    (find_sensor_config (some path) = some cfg → cfg ∈ sensor_configs ∧ cfg.path = path) ∧
    ((∀ c ∈ sensor_configs, c.path ≠ path) → find_sensor_config (some path) = none) ∧
    (sd_bus_message_is_signal msg prop_iface propchange_member = true →
      msg.firstArg = Except.ok crit_iface →
      find_sensor_config msg.path = none →
      propchange_handler msg call_rc = ⟨0, none, [], []⟩) :=
  ⟨fun h => sensor_config_lookup_some path sensor_configs cfg h,
   fun h => sensor_config_lookup_none path sensor_configs h,
   fun hsig hfa hfs => handler_no_sensor msg call_rc hsig hfa hfs⟩

/-- Witness for C5: a strict prefix of a configured path finds no entry,
and a matching signal from an unknown sender path is skipped even though
its payload carries an asserted watched property. -/
theorem registry_exact_match_and_skip_inst :
    find_sensor_config (some "/xyz/openbmc_project/sensors/temperature/Temp") = none ∧
    propchange_handler (mk_propchange_msg "/xyz/openbmc_project/sensors/temperature/Temp9"
      [("CriticalAlarmHigh", variant.vBool true)]) 0 = ⟨0, none, [], []⟩ :=
  ⟨(registry_exact_match_and_skip (mk_propchange_msg temp1_path []) 0
      "/xyz/openbmc_project/sensors/temperature/Temp" ⟨temp1_path, 0⟩).2.1 (by decide),
   (registry_exact_match_and_skip (mk_propchange_msg "/xyz/openbmc_project/sensors/temperature/Temp9"
      [("CriticalAlarmHigh", variant.vBool true)]) 0 temp1_path ⟨temp1_path, 0⟩).2.2
      (by decide) rfl (by decide)⟩

/-- C6: under a configuration watching only the High kind, the loop can
only ever report the high property name, never the low one, and the
end-to-end Temp2 signal carrying an asserted low property dispatches
nothing. -/
theorem high_only_config_never_low (cfg : sensor_config) (l : List (String × variant))
    (p : String) (hcfg : cfg.thresholds = T_HIGH) (h : prop_loop cfg l = some p) :
    p = "CriticalAlarmHigh" ∧ p ≠ "CriticalAlarmLow" ∧
    (propchange_handler
      (mk_propchange_msg temp2_path [("CriticalAlarmLow", variant.vBool true)]) 0).dispatch =
      none := by
  have hm := prop_loop_g_some_matches prop_names cfg l p h
  have hp : p = "CriticalAlarmHigh" := by
    by_cases h1 : "CriticalAlarmHigh" = p
    · exact h1.symm
    · exfalso
      have hdef : threshold_prop_matches_g cfg p prop_names =
          (if "CriticalAlarmHigh" = p then decide (cfg.thresholds &&& T_HIGH ≠ 0)
           else if "CriticalAlarmLow" = p then decide (cfg.thresholds &&& T_LOW ≠ 0)
           else false) := rfl
      rw [hdef, if_neg h1] at hm
      by_cases h2 : "CriticalAlarmLow" = p
      · rw [if_pos h2, hcfg] at hm
        exact absurd hm (by decide)
      · rw [if_neg h2] at hm
        exact Bool.false_ne_true hm
  refine ⟨hp, ?_, by decide⟩
  rw [hp]
  decide

/-- Witness for C6: instantiated at the Temp2 configuration with an entry
list whose only asserted property is the high one. -/
theorem high_only_config_never_low_inst :
    "CriticalAlarmHigh" = "CriticalAlarmHigh" ∧ "CriticalAlarmHigh" ≠ "CriticalAlarmLow" ∧
    (propchange_handler
      (mk_propchange_msg temp2_path [("CriticalAlarmLow", variant.vBool true)]) 0).dispatch =
      none :=
  high_only_config_never_low ⟨temp2_path, T_HIGH⟩
    [("CriticalAlarmHigh", variant.vBool true)] "CriticalAlarmHigh" rfl (by decide)

/-- C7: a watched entry whose value decodes to boolean false yields no
assertion and the loop continues: the result over the remaining entries is
exactly the result of running the loop on them. -/
theorem false_entry_continues (cfg : sensor_config) (n : String)
    (rest : List (String × variant))
    (h : threshold_prop_matches_config cfg n = true) :
    prop_loop cfg ((n, variant.vBool false) :: rest) = prop_loop cfg rest := by
  rw [threshold_prop_matches_config] at h
  rw [prop_loop, prop_loop_g]
  dsimp only
  simp [h, prop_loop]

/-- Witness for C7: the Temp1 configuration steps past a false low entry
and still evaluates the following high entry. -/
theorem false_entry_continues_inst :
    prop_loop ⟨temp1_path, T_LOW ||| T_HIGH⟩
      (("CriticalAlarmLow", variant.vBool false) :: [("CriticalAlarmHigh", variant.vBool true)]) =
      prop_loop ⟨temp1_path, T_LOW ||| T_HIGH⟩ [("CriticalAlarmHigh", variant.vBool true)] :=
  false_entry_continues ⟨temp1_path, T_LOW ||| T_HIGH⟩ "CriticalAlarmLow"
    [("CriticalAlarmHigh", variant.vBool true)] (by decide)

/-- C8: on a signal passing the is_signal check, a failed read of the first
positional argument propagates its negative return code as the handler
result, distinct from the success value 0 used for not-our-signal. -/
theorem firstarg_error_propagates (msg : sd_bus_message) (call_rc rc : Int)
    (hsig : sd_bus_message_is_signal msg prop_iface propchange_member = true)
    (herr : msg.firstArg = Except.error rc) (hneg : rc < 0) :
    propchange_handler msg call_rc = ⟨rc, none, [], []⟩ ∧
    (propchange_handler msg call_rc).rc < 0 ∧
    (propchange_handler msg call_rc).rc ≠ 0 := by
  have he := handler_firstarg_error msg call_rc rc hsig herr
  exact ⟨he, by rw [he]; exact hneg, by rw [he]; exact Int.ne_of_lt hneg⟩

/-- Witness for C8: a malformed payload with read failure code -22 makes
the handler return -22. -/
theorem firstarg_error_propagates_inst :
    propchange_handler
      ⟨msg_type.signal, prop_iface, propchange_member, some temp1_path,
       Except.error (-22), Except.ok []⟩ 0 = ⟨-22, none, [], []⟩ :=
  (firstarg_error_propagates
    ⟨msg_type.signal, prop_iface, propchange_member, some temp1_path,
     Except.error (-22), Except.ok []⟩ 0 (-22) (by decide) rfl (by decide)).1

/-- C1: the handler issues at most one remote call per message, and
whenever it dispatches, the dispatched property is the first entry of the
changed-properties list, in wire order, that matches the sender config and
carries the boolean value true; moreover the entry list splits at that
entry and every entry after it is irrelevant: the loop reports the same
property for every possible suffix. -/
theorem dispatch_at_most_once_first_match (msg : sd_bus_message) (call_rc : Int) :
    (propchange_handler msg call_rc).calls.length ≤ 1 ∧
    ∀ sender p, (propchange_handler msg call_rc).dispatch = some (sender, p) →
      ∃ sensor entries,
        find_sensor_config msg.path = some sensor ∧
        msg.body = Except.ok entries ∧
        entries.find? (fun e =>
          threshold_prop_matches_config sensor e.1 && decide (e.2 = variant.vBool true)) =
          some (p, variant.vBool true) ∧
        ∃ l₁ l₂, entries = l₁ ++ (p, variant.vBool true) :: l₂ ∧
          ∀ l₂', prop_loop sensor (l₁ ++ (p, variant.vBool true) :: l₂') = some p := by
  rcases handler_cases msg call_rc with ⟨rc, he⟩ | ⟨sensor, entries, pn, hfs, hb, hl, he⟩
  · rw [he]
    exact ⟨by simp, fun sender p hd => absurd hd (by simp)⟩
  · rw [he]
    refine ⟨by simp [handle_critical_threshold], fun sender p hd => ?_⟩
    simp only [Option.some.injEq, Prod.mk.injEq] at hd
    obtain ⟨-, hp⟩ := hd
    subst hp
    refine ⟨sensor, entries, hfs, hb, ?_, ?_⟩
    · exact prop_loop_g_first_match prop_names sensor entries pn hl
    · exact prop_loop_g_split prop_names sensor entries pn hl

/-- Witness for C1: the end-to-end Temp1 signal with a false low entry, a
true high entry, and a trailing entry that would itself assert if it were
(incorrectly) processed; dispatch happens once, for the high entry. -/
theorem dispatch_at_most_once_first_match_inst :
    (propchange_handler (mk_propchange_msg temp1_path
      [("CriticalAlarmLow", variant.vBool false), ("CriticalAlarmHigh", variant.vBool true),
       ("CriticalAlarmLow", variant.vBool true)]) 0).calls.length ≤ 1 ∧
    ∃ sensor entries,
      find_sensor_config (mk_propchange_msg temp1_path
        [("CriticalAlarmLow", variant.vBool false), ("CriticalAlarmHigh", variant.vBool true),
         ("CriticalAlarmLow", variant.vBool true)]).path = some sensor ∧
      (mk_propchange_msg temp1_path
        [("CriticalAlarmLow", variant.vBool false), ("CriticalAlarmHigh", variant.vBool true),
         ("CriticalAlarmLow", variant.vBool true)]).body = Except.ok entries ∧
      entries.find? (fun e =>
        threshold_prop_matches_config sensor e.1 && decide (e.2 = variant.vBool true)) =
        some ("CriticalAlarmHigh", variant.vBool true) ∧
      ∃ l₁ l₂, entries = l₁ ++ ("CriticalAlarmHigh", variant.vBool true) :: l₂ ∧
        ∀ l₂', prop_loop sensor (l₁ ++ ("CriticalAlarmHigh", variant.vBool true) :: l₂') =
          some "CriticalAlarmHigh" :=
  ⟨(dispatch_at_most_once_first_match (mk_propchange_msg temp1_path
      [("CriticalAlarmLow", variant.vBool false), ("CriticalAlarmHigh", variant.vBool true),
       ("CriticalAlarmLow", variant.vBool true)]) 0).1,
   (dispatch_at_most_once_first_match (mk_propchange_msg temp1_path
      [("CriticalAlarmLow", variant.vBool false), ("CriticalAlarmHigh", variant.vBool true),
       ("CriticalAlarmLow", variant.vBool true)]) 0).2 temp1_path "CriticalAlarmHigh" (by decide)⟩

/-- C2 counterexample: a signal from Temp1 whose relevant high entry
carries a non-boolean value. The entry is relevant to the sender config,
its value is not boolean-typed, yet the handler returns 0 — the success
value also used for not-our-signal — with no dispatch, instead of
surfacing a non-success decode result. -/
theorem nonbool_error_swallowed_cex :
    threshold_prop_matches_config ⟨temp1_path, T_LOW ||| T_HIGH⟩ "CriticalAlarmHigh" = true ∧
    find_sensor_config (some temp1_path) = some ⟨temp1_path, T_LOW ||| T_HIGH⟩ ∧
    propchange_handler (mk_propchange_msg temp1_path
      [("CriticalAlarmHigh", variant.vOther "s"), ("CriticalAlarmLow", variant.vBool true)])
      (-1) = ⟨0, none, [], []⟩ :=
  ⟨by decide, by decide, by decide⟩

/-- C2 amended: a relevant changed-properties entry whose value is not
boolean-typed stops the loop with no assertion — that entry and every
later entry produce no dispatch — and the handler returns 0, the success
value, to its caller; the decode failure is not surfaced. -/
theorem nonbool_relevant_entry_amended (path : String) (cfg : sensor_config) (n : String)
    (v : variant) (rest : List (String × variant)) (call_rc : Int)
    (hpath : find_sensor_config (some path) = some cfg)
    (hm : threshold_prop_matches_config cfg n = true)
    (hv : ∀ b, v ≠ variant.vBool b) :
    prop_loop cfg ((n, v) :: rest) = none ∧
    propchange_handler (mk_propchange_msg path ((n, v) :: rest)) call_rc =
      ⟨0, none, [], []⟩ := by
  have hloop : prop_loop cfg ((n, v) :: rest) = none := by
    cases v with
    | vBool b => exact absurd rfl (hv b)
    | vOther tag =>
      rw [threshold_prop_matches_config] at hm
      rw [prop_loop, prop_loop_g]
      dsimp only
      simp [hm]
  exact ⟨hloop,
    handler_loop_none (mk_propchange_msg path ((n, v) :: rest)) call_rc cfg ((n, v) :: rest)
      rfl rfl hpath rfl hloop⟩

/-- Witness for C2 amended: a non-boolean low entry from Temp1 silences the
whole message, including a later high entry that would assert. -/
theorem nonbool_relevant_entry_amended_inst :
    prop_loop ⟨temp1_path, T_LOW ||| T_HIGH⟩
      [("CriticalAlarmLow", variant.vOther "u"), ("CriticalAlarmHigh", variant.vBool true)] =
      none ∧
    propchange_handler (mk_propchange_msg temp1_path
      [("CriticalAlarmLow", variant.vOther "u"), ("CriticalAlarmHigh", variant.vBool true)]) 7 =
      ⟨0, none, [], []⟩ :=
  nonbool_relevant_entry_amended temp1_path ⟨temp1_path, T_LOW ||| T_HIGH⟩ "CriticalAlarmLow"
    (variant.vOther "u") [("CriticalAlarmHigh", variant.vBool true)] 7 (by decide) (by decide)
    (fun b h => variant.noConfusion h)

/-- C4: the is_signal check holds exactly when the message is a signal with
the well-known properties-changed interface and member names; a message
failing it, or one whose first positional argument reads as an interface
other than crit_iface, is rejected with rc 0 and no side effects, whatever
the rest of its payload. -/
theorem signal_filter_rejects (msg : sd_bus_message) (call_rc : Int) :
    (sd_bus_message_is_signal msg prop_iface propchange_member = true ↔
      msg.mtype = msg_type.signal ∧ msg.interface = prop_iface ∧
        msg.member = propchange_member) ∧
    (sd_bus_message_is_signal msg prop_iface propchange_member = false →
      propchange_handler msg call_rc = ⟨0, none, [], []⟩) ∧
    (∀ iface, msg.firstArg = Except.ok iface → iface ≠ crit_iface →
      propchange_handler msg call_rc = ⟨0, none, [], []⟩) := by
  refine ⟨?_, fun hsig => handler_not_signal msg call_rc hsig,
    fun iface hfa hif => handler_wrong_iface msg call_rc iface hfa hif⟩
  simp [sd_bus_message_is_signal, Bool.and_eq_true, beq_iff_eq, and_assoc]

/-- Witness for C4: a method call on the right interface and member is
rejected, and so is a signal whose first argument names the warning
interface instead of the critical one, both with asserted payloads. -/
theorem signal_filter_rejects_inst :
    propchange_handler
      ⟨msg_type.method_call, prop_iface, propchange_member, some temp1_path,
       Except.ok crit_iface, Except.ok [("CriticalAlarmHigh", variant.vBool true)]⟩ 0 =
      ⟨0, none, [], []⟩ ∧
    propchange_handler
      ⟨msg_type.signal, prop_iface, propchange_member, some temp1_path,
       Except.ok "xyz.openbmc_project.Sensor.Threshold.Warning",
       Except.ok [("CriticalAlarmHigh", variant.vBool true)]⟩ 0 =
      ⟨0, none, [], []⟩ :=
  ⟨(signal_filter_rejects
      ⟨msg_type.method_call, prop_iface, propchange_member, some temp1_path,
       Except.ok crit_iface, Except.ok [("CriticalAlarmHigh", variant.vBool true)]⟩ 0).2.1
      (by decide),
   (signal_filter_rejects
      ⟨msg_type.signal, prop_iface, propchange_member, some temp1_path,
       Except.ok "xyz.openbmc_project.Sensor.Threshold.Warning",
       Except.ok [("CriticalAlarmHigh", variant.vBool true)]⟩ 0).2.2
      "xyz.openbmc_project.Sensor.Threshold.Warning" rfl (by decide)⟩

/-- C9: the trigger issues exactly the one fixed chassis-off call whatever
the sensor path and property name are, a failing remote call adds only a
log line, and the handler result code never depends on the remote call
outcome. -/
theorem trigger_fixed_action (path prop : String) (call_rc : Int) (hfail : call_rc < 0) :
    (handle_critical_threshold path prop call_rc).1 = [chassis_off_call] ∧
    (∀ p2 q2 r2, (handle_critical_threshold p2 q2 r2).1 = [chassis_off_call]) ∧
    "failed to trigger host transition" ∈ (handle_critical_threshold path prop call_rc).2 ∧
    ∀ m a b, (propchange_handler m a).rc = (propchange_handler m b).rc := by
  refine ⟨rfl, fun p2 q2 r2 => rfl, ?_, fun m a b => handler_rc_indep m a b⟩
  simp [handle_critical_threshold, hfail]

/-- Witness for C9: the trigger at a concrete sensor and property with a
failing remote call issues the fixed call and logs the failure. -/
theorem trigger_fixed_action_inst :
    (handle_critical_threshold temp1_path "CriticalAlarmHigh" (-5)).1 = [chassis_off_call] ∧
    "failed to trigger host transition" ∈
      (handle_critical_threshold temp1_path "CriticalAlarmHigh" (-5)).2 :=
  ⟨(trigger_fixed_action temp1_path "CriticalAlarmHigh" (-5) (by decide)).1,
   (trigger_fixed_action temp1_path "CriticalAlarmHigh" (-5) (by decide)).2.2.1⟩

/-- C10: a handler pass leaves the global tables unchanged, a second run on
the same message from the post state gives the same output, and the
state-passing handler at the initial globals is the plain handler. -/
theorem handler_state_frame (g : globals) (msg : sd_bus_message) (call_rc : Int) :
    (propchange_handler_st g msg call_rc).1 = g ∧
    (propchange_handler_st (propchange_handler_st g msg call_rc).1 msg call_rc).2 =
      (propchange_handler_st g msg call_rc).2 ∧
    propchange_handler_st init_globals msg call_rc =
      (init_globals, propchange_handler msg call_rc) :=
  ⟨rfl, rfl, rfl⟩

end ThresholdMonitor
